import Mathlib

/-
Verification development for the k8scarbonfootprint carbon-calculation core
(pkg/carbon/calculator.go).  Go float64 arithmetic is embedded as exact
rational arithmetic (ℚ); fallible Go functions returning (T, error) are
embedded as `Except String T`.  The injected grid-intensity provider is
modelled by the result its single call per calculation produces
(`Except String ℚ`), and the instance-spec provider by a function
`String → Except String InstanceSpecs`, so theorems quantify over every
behaviour of the injected providers.  `time.Now()` is passed in explicitly
as the `now` argument.
-/

/-- Instance specifications, as consumed by `calculateNodeEnergyConsumption`
(fields `InstanceType`, `VCPUs`, `MemoryGB`, `TDP` of the Go struct;
`TDP` is integral in the source, cf. `float64(specs.TDP)`). -/
structure InstanceSpecs where
  instanceType : String
  vcpus : Int
  memoryGB : Int
  tdp : Int
deriving Repr, DecidableEq

/-- Per-container resource requests: `Resources.Requests.Cpu().MilliValue()`
(millicores) and `Resources.Requests.Memory().Value()` (bytes); `none`
embeds the Go `nil` quantity pointer that contributes nothing to the sums. -/
structure Container where
  cpuRequestMilli : Option Int
  memRequestBytes : Option Int
deriving Repr, DecidableEq

/-- The slice of a `corev1.Pod` the calculator reads: `Name`, `Namespace`,
`Spec.NodeName`, `Spec.Containers`, `Labels`. -/
structure Pod where
  name : String
  ns : String
  nodeName : String
  containers : List Container
  labels : List (String × String)
deriving Repr, DecidableEq

/-- The slice of a `corev1.Node` the calculator reads: `Name`, `Labels`,
`Status.Capacity.Cpu().MilliValue()` and `Status.Capacity.Memory().Value()`. -/
structure Node where
  name : String
  labels : List (String × String)
  cpuCapacityMilli : Int
  memCapacityBytes : Int
deriving Repr, DecidableEq

/-- The slice of a `corev1.Namespace` the calculator reads: `Name`, `Labels`. -/
structure K8sNamespace where
  name : String
  labels : List (String × String)
deriving Repr, DecidableEq

/-- Go `CarbonConfig`: the fields the calculation paths consume. -/
structure CarbonConfig where
  defaultGridIntensity : ℚ
  pue : ℚ
  enableNetworkAccounting : Bool
  enableStorageAccounting : Bool
deriving Repr, DecidableEq

/-- The `carbonCalculator` receiver: immutable config plus the injected
providers, each modelled by the outcome of the call the calculation makes. -/
structure Calculator where
  config : CarbonConfig
  gridIntensity : Except String ℚ
  instanceSpecs : String → Except String InstanceSpecs

/-- The `Metrics` record emitted by the four scope calculations. -/
structure Metrics where
  timestamp : Int
  resourceType : String
  resourceName : String
  ns : String
  nodeName : String
  co2Emissions : ℚ
  energyConsumption : ℚ
  gridIntensity : ℚ
  source : String
  labels : List (String × String)
  cpuUsage : ℚ
  memoryUsage : ℚ
  storageUsage : ℚ
  networkTraffic : ℚ
deriving Repr, DecidableEq

/-- The `Query` struct (the fields the formatter reads; `Filters` and the
time range are carried opaquely and never consumed by the formatter). -/
structure Query where
  refId : String
  queryType : String
  resourceType : String
  aggregation : String
  groupBy : List String
  timeRangeFrom : String
  timeRangeTo : String
deriving Repr, DecidableEq

/-- Lookup in a Go `map[string]string`, embedded as an association list. -/
def lookupLabel (labels : List (String × String)) (key : String) : Option String :=
  (labels.find? (fun p => p.1 == key)).map (fun p => p.2)

/-- Summed container CPU requests (millicores) of one pod, as
accumulated by the container loops of both energy models. -/
def podCPURequestMilli (pod : Pod) : ℚ :=
  pod.containers.foldl
    (fun acc c => acc + (match c.cpuRequestMilli with | some v => (v : ℚ) | none => 0)) 0

/-- Summed container memory requests (bytes) of one pod. -/
def podMemRequestBytes (pod : Pod) : ℚ :=
  pod.containers.foldl
    (fun acc c => acc + (match c.memRequestBytes with | some v => (v : ℚ) | none => 0)) 0

/-- Total CPU requests (millicores) of the pods scheduled to `node`, as
accumulated by the pod loop of `calculateNodeEnergyConsumption` (pods on
other nodes are skipped by the `pod.Spec.NodeName != node.Name` guard). -/
def nodeCPURequestMilli (node : Node) (pods : List Pod) : ℚ :=
  (pods.filter (fun p => p.nodeName == node.name)).foldl
    (fun acc p => acc + podCPURequestMilli p) 0

/-- Total memory requests (bytes) of the pods scheduled to `node`. -/
def nodeMemRequestBytes (node : Node) (pods : List Pod) : ℚ :=
  (pods.filter (fun p => p.nodeName == node.name)).foldl
    (fun acc p => acc + podMemRequestBytes p) 0

/-- Instance-type extraction from node labels: `beta.kubernetes.io/instance-type`
first, then `node.kubernetes.io/instance-type`, else `"unknown"`. -/
def instanceTypeOf (node : Node) : String :=
  match lookupLabel node.labels "beta.kubernetes.io/instance-type" with
  | some it => it
  | none =>
    match lookupLabel node.labels "node.kubernetes.io/instance-type" with
    | some it => it
    | none => "unknown"

/-- The fixed fallback spec substituted when `GetInstanceSpecs` fails:
2 vCPU, 4 GB, 100 W TDP. -/
def fallbackSpecs (instanceType : String) : InstanceSpecs :=
  { instanceType := instanceType, vcpus := 2, memoryGB := 4, tdp := 100 }

/-- The spec `calculateNodeEnergyConsumption` ends up using: the answer of the provider,, or the fallback spec on provider error. -/
def resolvedSpecs (c : Calculator) (node : Node) : InstanceSpecs :=
  match c.instanceSpecs (instanceTypeOf node) with
  | Except.ok s => s
  | Except.error _ => fallbackSpecs (instanceTypeOf node)

/-- Go `calculateNodeEnergyConsumption`: TDP-based node model.  Utilization is
total requested CPU over capacity, clamped above at 1; the memory
utilization is computed by the source but never used.  Always returns `ok`. -/
def calculateNodeEnergyConsumption (c : Calculator) (node : Node) (pods : List Pod) :
    Except String ℚ :=
  let specs := resolvedSpecs c node
  let baseEnergyWatts : ℚ := (specs.tdp : ℚ)
  let totalCPURequests := nodeCPURequestMilli node pods
  let nodeCPUCapacity : ℚ := (node.cpuCapacityMilli : ℚ)
  let cpuUtilization0 := totalCPURequests / nodeCPUCapacity
  let cpuUtilization := if cpuUtilization0 > 1 then 1 else cpuUtilization0
  let utilizationFactor := 3 / 10 + 7 / 10 * cpuUtilization
  let energyWatts := baseEnergyWatts * utilizationFactor
  let energyKWh := energyWatts / 1000
  Except.ok energyKWh

/-- Go `calculatePodEnergyConsumption`: additive request-based pod model.
Fails when the pod has no assigned node; otherwise
(cpu millicores / 1000) × 2.5 W + (memory bytes / 2^30) × 0.375 W,
converted to kWh by dividing by 1000. -/
def calculatePodEnergyConsumption (pod : Pod) : Except String ℚ :=
  if pod.nodeName == "" then
    Except.error ("pod " ++ pod.ns ++ "/" ++ pod.name ++ " is not scheduled to a node")
  else
    let totalCPURequests := podCPURequestMilli pod
    let totalMemoryRequests := podMemRequestBytes pod
    let cpuEnergyWatts := totalCPURequests / 1000 * (5 / 2)
    let memoryEnergyWatts := totalMemoryRequests / (1024 * 1024 * 1024) * (3 / 8)
    let totalEnergyWatts := cpuEnergyWatts + memoryEnergyWatts
    let energyKWh := totalEnergyWatts / 1000
    Except.ok energyKWh

/-- The grid-intensity call pattern shared by all four scope calculations:
`GetGridIntensity(ctx, default)`, replaced by the configured default on error. -/
def getGridIntensityOrDefault (c : Calculator) : ℚ :=
  match c.gridIntensity with
  | Except.ok g => g
  | Except.error _ => c.config.defaultGridIntensity

/-- Go `CalculateClusterCarbon`: sums node energies (skipping nodes whose
energy calculation errors), applies PUE, multiplies by grid intensity,
emits exactly one cluster metric. -/
def CalculateClusterCarbon (c : Calculator) (now : Int) (nodes : List Node)
    (pods : List Pod) : Except String (List Metrics) :=
  let totalEnergy0 := nodes.foldl
    (fun acc node =>
      match calculateNodeEnergyConsumption c node pods with
      | Except.ok e => acc + e
      | Except.error _ => acc) 0
  let gridIntensity := getGridIntensityOrDefault c
  let totalEnergy := totalEnergy0 * c.config.pue
  let totalCO2 := totalEnergy * gridIntensity
  Except.ok [{ timestamp := now, resourceType := "cluster", resourceName := "cluster",
               ns := "", nodeName := "", co2Emissions := totalCO2,
               energyConsumption := totalEnergy, gridIntensity := gridIntensity,
               source := "calculated", labels := [], cpuUsage := 0, memoryUsage := 0,
               storageUsage := 0, networkTraffic := 0 }]

/-- Go `CalculateNamespaceCarbon`: filters pods by namespace, sums pod energies
(skipping pods whose energy calculation errors), applies PUE, multiplies by
grid intensity, emits exactly one namespace metric. -/
def CalculateNamespaceCarbon (c : Calculator) (now : Int) (nsArg : K8sNamespace)
    (pods : List Pod) : Except String (List Metrics) :=
  let namespacePods := pods.filter (fun p => p.ns == nsArg.name)
  let totalEnergy0 := namespacePods.foldl
    (fun acc pod =>
      match calculatePodEnergyConsumption pod with
      | Except.ok e => acc + e
      | Except.error _ => acc) 0
  let gridIntensity := getGridIntensityOrDefault c
  let totalEnergy := totalEnergy0 * c.config.pue
  let totalCO2 := totalEnergy * gridIntensity
  Except.ok [{ timestamp := now, resourceType := "namespace", resourceName := nsArg.name,
               ns := nsArg.name, nodeName := "", co2Emissions := totalCO2,
               energyConsumption := totalEnergy, gridIntensity := gridIntensity,
               source := "calculated", labels := nsArg.labels, cpuUsage := 0,
               memoryUsage := 0, storageUsage := 0, networkTraffic := 0 }]

/-- Go `CalculateNodeCarbon`: filters pods on the node, applies the node model,
PUE and grid intensity, emits exactly one node metric labelled with
instance type and topology zone. -/
def CalculateNodeCarbon (c : Calculator) (now : Int) (node : Node)
    (pods : List Pod) : Except String (List Metrics) :=
  let nodePods := pods.filter (fun p => p.nodeName == node.name)
  match calculateNodeEnergyConsumption c node nodePods with
  | Except.error e => Except.error e
  | Except.ok nodeEnergy0 =>
    let gridIntensity := getGridIntensityOrDefault c
    let nodeEnergy := nodeEnergy0 * c.config.pue
    let co2Emissions := nodeEnergy * gridIntensity
    let instanceType := instanceTypeOf node
    let labels := [("instance-type", instanceType),
      ("zone", (lookupLabel node.labels "topology.kubernetes.io/zone").getD "")]
    Except.ok [{ timestamp := now, resourceType := "node", resourceName := node.name,
                 ns := "", nodeName := node.name, co2Emissions := co2Emissions,
                 energyConsumption := nodeEnergy, gridIntensity := gridIntensity,
                 source := "calculated", labels := labels, cpuUsage := 0,
                 memoryUsage := 0, storageUsage := 0, networkTraffic := 0 }]

/-- Go `CalculatePodCarbon`: pod model energy (propagating its error), PUE,
grid intensity, exactly one pod metric. -/
def CalculatePodCarbon (c : Calculator) (now : Int) (pod : Pod) :
    Except String (List Metrics) :=
  match calculatePodEnergyConsumption pod with
  | Except.error e => Except.error e
  | Except.ok podEnergy0 =>
    let gridIntensity := getGridIntensityOrDefault c
    let podEnergy := podEnergy0 * c.config.pue
    let co2Emissions := podEnergy * gridIntensity
    Except.ok [{ timestamp := now, resourceType := "pod", resourceName := pod.name,
                 ns := pod.ns, nodeName := pod.nodeName, co2Emissions := co2Emissions,
                 energyConsumption := podEnergy, gridIntensity := gridIntensity,
                 source := "calculated", labels := pod.labels, cpuUsage := 0,
                 memoryUsage := 0, storageUsage := 0, networkTraffic := 0 }]

/-- Frame metadata type tags (`data.FrameTypeTimeSeriesMulti`,
`data.FrameTypeTable`, `data.FrameTypeSingleValue`). -/
inductive FrameType where
  | timeSeriesMulti
  | tableKind
  | singleValue
deriving Repr, DecidableEq

/-- A cell value in a data-frame field (time, string or float64 column). -/
inductive FieldValue where
  | timeVal (t : Int)
  | strVal (s : String)
  | numVal (q : ℚ)
deriving Repr, DecidableEq

/-- A data-frame field: name, optional unit from `data.FieldConfig`, values. -/
structure DataField where
  name : String
  unit : Option String
  values : List FieldValue
deriving Repr, DecidableEq

/-- A Grafana data frame: name (the query `RefID`), fields, frame-type meta. -/
structure DataFrame where
  name : String
  fields : List DataField
  meta : Option FrameType
deriving Repr, DecidableEq

/-- Go `convertToTimeSeriesFrames`: one frame, fields time / co2_emissions /
energy_consumption / grid_intensity, one row per metric in input order. -/
def convertToTimeSeriesFrames (metrics : List Metrics) (query : Query) :
    Except String (List DataFrame) :=
  let timeField : DataField :=
    { name := "time", unit := none,
      values := metrics.map (fun m => FieldValue.timeVal m.timestamp) }
  let co2Field : DataField :=
    { name := "co2_emissions", unit := some "gCO2",
      values := metrics.map (fun m => FieldValue.numVal m.co2Emissions) }
  let energyField : DataField :=
    { name := "energy_consumption", unit := some "kWh",
      values := metrics.map (fun m => FieldValue.numVal m.energyConsumption) }
  let gridIntensityField : DataField :=
    { name := "grid_intensity", unit := some "gCO2/kWh",
      values := metrics.map (fun m => FieldValue.numVal m.gridIntensity) }
  Except.ok [{ name := query.refId,
               fields := [timeField, co2Field, energyField, gridIntensityField],
               meta := some FrameType.timeSeriesMulti }]

/-- Go `convertToTableFrames`: one frame, fields resource / namespace /
co2_emissions / energy_consumption, one row per metric in input order. -/
def convertToTableFrames (metrics : List Metrics) (query : Query) :
    Except String (List DataFrame) :=
  let resourceField : DataField :=
    { name := "resource", unit := none,
      values := metrics.map (fun m => FieldValue.strVal m.resourceName) }
  let namespaceField : DataField :=
    { name := "namespace", unit := none,
      values := metrics.map (fun m => FieldValue.strVal m.ns) }
  let co2Field : DataField :=
    { name := "co2_emissions", unit := some "gCO2",
      values := metrics.map (fun m => FieldValue.numVal m.co2Emissions) }
  let energyField : DataField :=
    { name := "energy_consumption", unit := some "kWh",
      values := metrics.map (fun m => FieldValue.numVal m.energyConsumption) }
  Except.ok [{ name := query.refId,
               fields := [resourceField, namespaceField, co2Field, energyField],
               meta := some FrameType.tableKind }]

/-- The aggregation switch of `convertToSingleValueFrames`: starting from
`value = 0`, sum / average / running-max / running-min of the per-metric
`CO2Emissions`; any unrecognized operator takes the default branch, which
repeats the sum loop. -/
def singleAggValue (metrics : List Metrics) (agg : String) : ℚ :=
  match agg with
  | "sum" => metrics.foldl (fun v m => v + m.co2Emissions) 0
  | "avg" =>
    let s := metrics.foldl (fun v m => v + m.co2Emissions) 0
    if metrics.length > 0 then s / (metrics.length : ℚ) else s
  | "max" =>
    match metrics with
    | [] => 0
    | m0 :: rest =>
      rest.foldl (fun v m => if m.co2Emissions > v then m.co2Emissions else v) m0.co2Emissions
  | "min" =>
    match metrics with
    | [] => 0
    | m0 :: rest =>
      rest.foldl (fun v m => if m.co2Emissions < v then m.co2Emissions else v) m0.co2Emissions
  | _ => metrics.foldl (fun v m => v + m.co2Emissions) 0

/-- Go `convertToSingleValueFrames`: one frame with the single aggregated
`value` field (unit gCO2); never returns an error. -/
def convertToSingleValueFrames (metrics : List Metrics) (query : Query) :
    Except String (List DataFrame) :=
  let value := singleAggValue metrics query.aggregation
  let valueField : DataField :=
    { name := "value", unit := some "gCO2",
      values := [FieldValue.numVal value] }
  Except.ok [{ name := query.refId, fields := [valueField],
               meta := some FrameType.singleValue }]

/-- Go `ConvertToDataFrames`: empty input short-circuits to an empty frame
list; otherwise dispatch on `QueryType`, defaulting to time series. -/
def ConvertToDataFrames (metrics : List Metrics) (query : Query) :
    Except String (List DataFrame) :=
  if metrics.length = 0 then Except.ok []
  else
    match query.queryType with
    | "timeseries" => convertToTimeSeriesFrames metrics query
    | "table" => convertToTableFrames metrics query
    | "single-value" => convertToSingleValueFrames metrics query
    | _ => convertToTimeSeriesFrames metrics query

/-- The upper-and-lower clamp named by the specification of the node model
(the source clamps only above; the lower bound is supplied by non-negative
requests). -/
def clamp (x lo hi : ℚ) : ℚ := max lo (min x hi)

/-! Concrete fixtures used by witnesses and counterexamples. -/

/-- The end-to-end scenario pod of the spec: 500 millicores CPU, 1 GiB memory,
scheduled to a node. -/
def scenarioPod : Pod :=
  { name := "web", ns := "default", nodeName := "node-1",
    containers := [{ cpuRequestMilli := some 500, memRequestBytes := some 1073741824 }],
    labels := [] }

/-- Same pod but requesting 600 millicores CPU, equal memory. -/
def scenarioPodHigherCPU : Pod :=
  { name := "web-hi", ns := "default", nodeName := "node-1",
    containers := [{ cpuRequestMilli := some 600, memRequestBytes := some 1073741824 }],
    labels := [] }

/-- A pod with no assigned node. -/
def unscheduledPod : Pod :=
  { name := "pending", ns := "default", nodeName := "", containers := [], labels := [] }

/-- Calculator for the end-to-end scenario: PUE 1.5, grid lookup succeeds
with 500 gCO2/kWh. -/
def scenarioCalc : Calculator :=
  { config := { defaultGridIntensity := 500, pue := 3 / 2,
                enableNetworkAccounting := false, enableStorageAccounting := false },
    gridIntensity := Except.ok 500,
    instanceSpecs := fun _ => Except.error "no instance data" }

/-- Calculator whose injected grid-intensity provider fails, forcing the
default-intensity fallback (default 400 gCO2/kWh, PUE 2). -/
def fallbackCalc : Calculator :=
  { config := { defaultGridIntensity := 400, pue := 2,
                enableNetworkAccounting := false, enableStorageAccounting := false },
    gridIntensity := Except.error "grid intensity lookup failed",
    instanceSpecs := fun _ => Except.error "unknown instance type" }

/-- The metric `CalculatePodCarbon` emits for `scenarioPod` under
`scenarioCalc`: energy 0.0024375 kWh (= 39/16000), CO2 1.21875 g (= 39/32). -/
def scenarioPodMetric : Metrics :=
  { timestamp := 0, resourceType := "pod", resourceName := "web", ns := "default",
    nodeName := "node-1", co2Emissions := 39 / 32,
    energyConsumption := 39 / 16000, gridIntensity := 500,
    source := "calculated", labels := [], cpuUsage := 0, memoryUsage := 0,
    storageUsage := 0, networkTraffic := 0 }

/-- C8: formatting an empty metric list returns an empty frame list (and no
error) for every query, hence for every output shape — never a single
frame with zero rows. -/
theorem convert_empty_input (q : Query) : ConvertToDataFrames [] q = Except.ok [] := rfl

/-- C10: `calculateNodeEnergyConsumption` always returns `ok` (its value is
the TDP-scaled formula on the resolved — possibly fallback — spec), so
`CalculateClusterCarbon`, `CalculateNamespaceCarbon` and
`CalculateNodeCarbon` always return a nil error together with exactly one
metric: their error paths are unreachable. -/
theorem scope_calculations_never_fail :
    (∀ (c : Calculator) (node : Node) (pods : List Pod),
      calculateNodeEnergyConsumption c node pods =
        Except.ok (((resolvedSpecs c node).tdp : ℚ) *
          (3 / 10 + 7 / 10 *
            (if nodeCPURequestMilli node pods / (node.cpuCapacityMilli : ℚ) > 1 then 1
             else nodeCPURequestMilli node pods / (node.cpuCapacityMilli : ℚ))) / 1000)) ∧
    (∀ (c : Calculator) (now : Int) (nodes : List Node) (pods : List Pod),
      (CalculateClusterCarbon c now nodes pods).map (fun ms => ms.length) = Except.ok 1) ∧
    (∀ (c : Calculator) (now : Int) (nsArg : K8sNamespace) (pods : List Pod),
      (CalculateNamespaceCarbon c now nsArg pods).map (fun ms => ms.length) = Except.ok 1) ∧
    (∀ (c : Calculator) (now : Int) (node : Node) (pods : List Pod),
      (CalculateNodeCarbon c now node pods).map (fun ms => ms.length) = Except.ok 1) := by
  refine ⟨fun c node pods => rfl, fun c now nodes pods => rfl,
    fun c now nsArg pods => rfl, fun c now node pods => rfl⟩

/-- C1: every metric emitted by any of the four scope calculations satisfies
the mass identity: `CO2Emissions` equals `EnergyConsumption` (the stored,
post-PUE energy) times the stored `GridIntensity`, exactly. -/
theorem mass_identity :
    (∀ (c : Calculator) (now : Int) (nodes : List Node) (pods : List Pod) (ms : List Metrics),
      CalculateClusterCarbon c now nodes pods = Except.ok ms →
      ∀ m ∈ ms, m.co2Emissions = m.energyConsumption * m.gridIntensity) ∧
    (∀ (c : Calculator) (now : Int) (nsArg : K8sNamespace) (pods : List Pod) (ms : List Metrics),
      CalculateNamespaceCarbon c now nsArg pods = Except.ok ms →
      ∀ m ∈ ms, m.co2Emissions = m.energyConsumption * m.gridIntensity) ∧
    (∀ (c : Calculator) (now : Int) (node : Node) (pods : List Pod) (ms : List Metrics),
      CalculateNodeCarbon c now node pods = Except.ok ms →
      ∀ m ∈ ms, m.co2Emissions = m.energyConsumption * m.gridIntensity) ∧
    (∀ (c : Calculator) (now : Int) (pod : Pod) (ms : List Metrics),
      CalculatePodCarbon c now pod = Except.ok ms →
      ∀ m ∈ ms, m.co2Emissions = m.energyConsumption * m.gridIntensity) := by
  refine ⟨?_, ?_, ?_, ?_⟩
  · intro c now nodes pods ms h m hm
    simp only [CalculateClusterCarbon, Except.ok.injEq] at h
    subst h
    simp only [List.mem_singleton] at hm
    subst hm
    rfl
  · intro c now nsArg pods ms h m hm
    simp only [CalculateNamespaceCarbon, Except.ok.injEq] at h
    subst h
    simp only [List.mem_singleton] at hm
    subst hm
    rfl
  · intro c now node pods ms h m hm
    simp only [CalculateNodeCarbon, calculateNodeEnergyConsumption, Except.ok.injEq] at h
    subst h
    simp only [List.mem_singleton] at hm
    subst hm
    rfl
  · intro c now pod ms h m hm
    cases hE : calculatePodEnergyConsumption pod with
    | error e => simp [CalculatePodCarbon, hE] at h
    | ok q =>
      simp only [CalculatePodCarbon, hE, Except.ok.injEq] at h
      subst h
      simp only [List.mem_singleton] at hm
      subst hm
      rfl

/-- Witness for C1: the mass identity instantiated on the concrete
end-to-end scenario pod metric. -/
theorem mass_identity_witness :
    scenarioPodMetric.co2Emissions =
      scenarioPodMetric.energyConsumption * scenarioPodMetric.gridIntensity :=
  mass_identity.2.2.2 scenarioCalc 0 scenarioPod [scenarioPodMetric]
    (by
      have h : (scenarioPod.nodeName == "") = false := rfl
      simp only [CalculatePodCarbon, calculatePodEnergyConsumption, h,
        Bool.false_eq_true, if_false]
      norm_num [podCPURequestMilli, podMemRequestBytes, getGridIntensityOrDefault,
        scenarioCalc, scenarioPod, scenarioPodMetric, Metrics.mk.injEq])
    scenarioPodMetric (List.mem_singleton.mpr rfl)

/-- C5: a pod with an empty node name makes `CalculatePodCarbon` return the
not-scheduled error and no metric. -/
theorem unscheduled_pod_error :
    ∀ (c : Calculator) (now : Int) (pod : Pod), pod.nodeName = "" →
      CalculatePodCarbon c now pod =
        Except.error ("pod " ++ pod.ns ++ "/" ++ pod.name ++ " is not scheduled to a node") := by
  intro c now pod h
  simp [CalculatePodCarbon, calculatePodEnergyConsumption, h]

/-- Witness for C5: the concrete unscheduled pod is rejected with the
not-scheduled error. -/
theorem unscheduled_pod_error_witness :
    CalculatePodCarbon scenarioCalc 0 unscheduledPod =
      Except.error ("pod " ++ unscheduledPod.ns ++ "/" ++ unscheduledPod.name ++
        " is not scheduled to a node") :=
  unscheduled_pod_error scenarioCalc 0 unscheduledPod rfl

/-- The metric `CalculateClusterCarbon` emits for an empty cluster under
`fallbackCalc` (fields written as the unreduced products the source forms). -/
def fallbackClusterMetric : Metrics :=
  { timestamp := 0, resourceType := "cluster", resourceName := "cluster", ns := "",
    nodeName := "", co2Emissions := 0 * 2 * 400, energyConsumption := 0 * 2,
    gridIntensity := 400, source := "calculated", labels := [], cpuUsage := 0,
    memoryUsage := 0, storageUsage := 0, networkTraffic := 0 }

/-- C4 counterexample: under `fallbackCalc` the grid-intensity lookup fails,
so the configured default (400) is substituted — a fallback — yet the
`Source` of the emitted metric is `"calculated"`, not `"estimated"` as the claim
requires. -/
theorem source_tag_counterexample :
    fallbackCalc.gridIntensity = Except.error "grid intensity lookup failed" ∧
    (CalculatePodCarbon fallbackCalc 0 scenarioPod).map
        (fun ms => ms.map (fun m => m.gridIntensity)) =
      Except.ok [fallbackCalc.config.defaultGridIntensity] ∧
    (CalculatePodCarbon fallbackCalc 0 scenarioPod).map
        (fun ms => ms.map (fun m => m.source)) =
      Except.ok ["calculated"] ∧
    "calculated" ≠ "estimated" := by
  exact ⟨rfl, rfl, rfl, by decide⟩

/-- C4 amended: the `Source` field of every metric emitted by any of the
four scope calculations is always `"calculated"`, whether or not a
fallback value was substituted; `"estimated"` is never emitted. -/
theorem source_always_calculated :
    (∀ (c : Calculator) (now : Int) (nodes : List Node) (pods : List Pod) (ms : List Metrics),
      CalculateClusterCarbon c now nodes pods = Except.ok ms →
      ∀ m ∈ ms, m.source = "calculated") ∧
    (∀ (c : Calculator) (now : Int) (nsArg : K8sNamespace) (pods : List Pod) (ms : List Metrics),
      CalculateNamespaceCarbon c now nsArg pods = Except.ok ms →
      ∀ m ∈ ms, m.source = "calculated") ∧
    (∀ (c : Calculator) (now : Int) (node : Node) (pods : List Pod) (ms : List Metrics),
      CalculateNodeCarbon c now node pods = Except.ok ms →
      ∀ m ∈ ms, m.source = "calculated") ∧
    (∀ (c : Calculator) (now : Int) (pod : Pod) (ms : List Metrics),
      CalculatePodCarbon c now pod = Except.ok ms →
      ∀ m ∈ ms, m.source = "calculated") := by
  refine ⟨?_, ?_, ?_, ?_⟩
  · intro c now nodes pods ms h m hm
    simp only [CalculateClusterCarbon, Except.ok.injEq] at h
    subst h
    simp only [List.mem_singleton] at hm
    subst hm
    rfl
  · intro c now nsArg pods ms h m hm
    simp only [CalculateNamespaceCarbon, Except.ok.injEq] at h
    subst h
    simp only [List.mem_singleton] at hm
    subst hm
    rfl
  · intro c now node pods ms h m hm
    simp only [CalculateNodeCarbon, calculateNodeEnergyConsumption, Except.ok.injEq] at h
    subst h
    simp only [List.mem_singleton] at hm
    subst hm
    rfl
  · intro c now pod ms h m hm
    cases hE : calculatePodEnergyConsumption pod with
    | error e => simp [CalculatePodCarbon, hE] at h
    | ok q =>
      simp only [CalculatePodCarbon, hE, Except.ok.injEq] at h
      subst h
      simp only [List.mem_singleton] at hm
      subst hm
      rfl

/-- Witness for the amended C4: the cluster metric emitted while the grid
fallback is in force carries source `"calculated"`. -/
theorem source_always_calculated_witness :
    fallbackClusterMetric.source = "calculated" :=
  source_always_calculated.1 fallbackCalc 0 [] [] [fallbackClusterMetric] rfl
    fallbackClusterMetric (List.mem_singleton.mpr rfl)

/-- C6: whenever the injected grid-intensity provider returns an error, the
configured default intensity is substituted and every scope calculation
still emits its single metric (pod scope: the outcome is identical to the
outcome under a provider that successfully returns the default, and a
scheduled pod still gets its metric) — lookup failure is never fatal. -/
theorem grid_failure_not_fatal :
    ∀ (c : Calculator) (err : String), c.gridIntensity = Except.error err →
      (∀ (now : Int) (nodes : List Node) (pods : List Pod),
        (CalculateClusterCarbon c now nodes pods).map
            (fun ms => ms.map (fun m => m.gridIntensity)) =
          Except.ok [c.config.defaultGridIntensity]) ∧
      (∀ (now : Int) (nsArg : K8sNamespace) (pods : List Pod),
        (CalculateNamespaceCarbon c now nsArg pods).map
            (fun ms => ms.map (fun m => m.gridIntensity)) =
          Except.ok [c.config.defaultGridIntensity]) ∧
      (∀ (now : Int) (node : Node) (pods : List Pod),
        (CalculateNodeCarbon c now node pods).map
            (fun ms => ms.map (fun m => m.gridIntensity)) =
          Except.ok [c.config.defaultGridIntensity]) ∧
      (∀ (now : Int) (pod : Pod),
        CalculatePodCarbon c now pod =
          CalculatePodCarbon
            { config := c.config, gridIntensity := Except.ok c.config.defaultGridIntensity,
              instanceSpecs := c.instanceSpecs } now pod) ∧
      (∀ (now : Int) (pod : Pod), pod.nodeName ≠ "" →
        (CalculatePodCarbon c now pod).map (fun ms => ms.map (fun m => m.gridIntensity)) =
          Except.ok [c.config.defaultGridIntensity]) := by
  intro c err h
  have hg : getGridIntensityOrDefault c = c.config.defaultGridIntensity := by
    simp [getGridIntensityOrDefault, h]
  refine ⟨?_, ?_, ?_, ?_, ?_⟩
  · intro now nodes pods
    simp [CalculateClusterCarbon, hg, Except.map]
  · intro now nsArg pods
    simp [CalculateNamespaceCarbon, hg, Except.map]
  · intro now node pods
    simp [CalculateNodeCarbon, calculateNodeEnergyConsumption, hg, Except.map]
  · intro now pod
    cases hE : calculatePodEnergyConsumption pod with
    | error e =>
      simp [CalculatePodCarbon, hE]
    | ok q =>
      simp only [CalculatePodCarbon, hE]
      have hg2 : getGridIntensityOrDefault
          { config := c.config, gridIntensity := Except.ok c.config.defaultGridIntensity,
            instanceSpecs := c.instanceSpecs } = c.config.defaultGridIntensity := rfl
      rw [hg, hg2]
  · intro now pod hne
    have hb : (pod.nodeName == "") = false := beq_eq_false_iff_ne.mpr hne
    simp [CalculatePodCarbon, calculatePodEnergyConsumption, hb, hg, Except.map]

/-- Witness for C6: the empty-cluster calculation under the failing
provider emits one metric carrying the default intensity. -/
theorem grid_failure_not_fatal_witness :
    (CalculateClusterCarbon fallbackCalc 0 [] []).map
        (fun ms => ms.map (fun m => m.gridIntensity)) =
      Except.ok [fallbackCalc.config.defaultGridIntensity] :=
  (grid_failure_not_fatal fallbackCalc "grid intensity lookup failed" rfl).1 0 [] []

/-- A node with 2000 millicores CPU capacity and 8 GiB memory, no labels
(so the instance-type lookup falls back to `"unknown"`). -/
def scenarioNode : Node :=
  { name := "node-1", labels := [], cpuCapacityMilli := 2000,
    memCapacityBytes := 8589934592 }

/-- For clamping arguments that are already non-negative, the two-sided
clamp named by the spec coincides with the one-sided upper clamp the
source implements. -/
theorem clamp_nonneg_eq (u : ℚ) (hu : 0 ≤ u) :
    clamp u 0 1 = if u > 1 then 1 else u := by
  unfold clamp
  rcases le_or_lt u 1 with h | h
  · rw [min_eq_left h, max_eq_right hu, if_neg (not_lt.mpr h)]
  · rw [min_eq_right h.le, if_pos h]
    exact max_eq_right zero_le_one

/-- C2: for every scheduled pod the pod-model energy is
((cpu millicores / 1000) × 2.5 + (memory bytes / 2^30) × 0.375) / 1000 kWh,
and the end-to-end scenario (500 millicores, 1 GiB, PUE 1.5, grid 500)
yields energy 0.0024375 kWh and CO2 mass 1.21875 g. -/
theorem pod_energy_model :
    (∀ pod : Pod, pod.nodeName ≠ "" →
      calculatePodEnergyConsumption pod =
        Except.ok ((podCPURequestMilli pod / 1000 * (5 / 2) +
          podMemRequestBytes pod / 2 ^ 30 * (3 / 8)) / 1000)) ∧
    (∃ m : Metrics, CalculatePodCarbon scenarioCalc 0 scenarioPod = Except.ok [m] ∧
      m.energyConsumption = 24375 / 10000000 ∧ m.co2Emissions = 121875 / 100000) := by
  constructor
  · intro pod h
    have hb : (pod.nodeName == "") = false := beq_eq_false_iff_ne.mpr h
    simp only [calculatePodEnergyConsumption, hb, Bool.false_eq_true, if_false,
      Except.ok.injEq]
    norm_num
  · refine ⟨scenarioPodMetric, ?_, by norm_num [scenarioPodMetric], by norm_num [scenarioPodMetric]⟩
    have h : (scenarioPod.nodeName == "") = false := rfl
    simp only [CalculatePodCarbon, calculatePodEnergyConsumption, h,
      Bool.false_eq_true, if_false]
    norm_num [podCPURequestMilli, podMemRequestBytes, getGridIntensityOrDefault,
      scenarioCalc, scenarioPod, scenarioPodMetric, Metrics.mk.injEq]

/-- Witness for C2: the pod-model formula instantiated on the scenario pod. -/
theorem pod_energy_model_witness :
    calculatePodEnergyConsumption scenarioPod =
      Except.ok ((podCPURequestMilli scenarioPod / 1000 * (5 / 2) +
        podMemRequestBytes scenarioPod / 2 ^ 30 * (3 / 8)) / 1000) :=
  pod_energy_model.1 scenarioPod (by decide)

/-- C3: for non-negative total requests and positive CPU capacity, the node
model energy is TDP × (0.3 + 0.7 × clamp(requested / capacity, 0, 1)) / 1000
kWh; at zero requested CPU the factor is exactly 0.3, at requested ≥
capacity it is exactly 1 (energy TDP/1000), and for non-negative TDP the
pre-PUE energy never exceeds TDP / 1000. -/
theorem node_energy_model :
    ∀ (c : Calculator) (node : Node) (pods : List Pod),
      0 ≤ nodeCPURequestMilli node pods →
      0 < (node.cpuCapacityMilli : ℚ) →
      (calculateNodeEnergyConsumption c node pods =
        Except.ok (((resolvedSpecs c node).tdp : ℚ) *
          (3 / 10 + 7 / 10 *
            clamp (nodeCPURequestMilli node pods / (node.cpuCapacityMilli : ℚ)) 0 1) / 1000)) ∧
      (nodeCPURequestMilli node pods = 0 →
        calculateNodeEnergyConsumption c node pods =
          Except.ok (((resolvedSpecs c node).tdp : ℚ) * (3 / 10) / 1000)) ∧
      ((node.cpuCapacityMilli : ℚ) ≤ nodeCPURequestMilli node pods →
        calculateNodeEnergyConsumption c node pods =
          Except.ok (((resolvedSpecs c node).tdp : ℚ) / 1000)) ∧
      (0 ≤ ((resolvedSpecs c node).tdp : ℚ) →
        ∀ e, calculateNodeEnergyConsumption c node pods = Except.ok e →
          e ≤ ((resolvedSpecs c node).tdp : ℚ) / 1000) := by
  intro c node pods htot hcap
  have hu : 0 ≤ nodeCPURequestMilli node pods / (node.cpuCapacityMilli : ℚ) :=
    div_nonneg htot hcap.le
  refine ⟨?_, ?_, ?_, ?_⟩
  · rw [clamp_nonneg_eq _ hu]
    rfl
  · intro h0
    simp only [calculateNodeEnergyConsumption, h0, zero_div, Except.ok.injEq]
    norm_num
  · intro hge
    have h1 : 1 ≤ nodeCPURequestMilli node pods / (node.cpuCapacityMilli : ℚ) :=
      (one_le_div hcap).mpr hge
    have hif : (if nodeCPURequestMilli node pods / (node.cpuCapacityMilli : ℚ) > 1 then (1 : ℚ)
        else nodeCPURequestMilli node pods / (node.cpuCapacityMilli : ℚ)) = 1 := by
      split
      · rfl
      · next hnot => exact le_antisymm (not_lt.mp hnot) h1
    simp only [calculateNodeEnergyConsumption, hif, Except.ok.injEq]
    ring
  · intro htdp e he
    simp only [calculateNodeEnergyConsumption, Except.ok.injEq] at he
    have hif : (if nodeCPURequestMilli node pods / (node.cpuCapacityMilli : ℚ) > 1 then (1 : ℚ)
        else nodeCPURequestMilli node pods / (node.cpuCapacityMilli : ℚ)) ≤ 1 := by
      split
      · exact le_refl 1
      · next hnot => exact not_lt.mp hnot
    have hfac : 3 / 10 + 7 / 10 *
        (if nodeCPURequestMilli node pods / (node.cpuCapacityMilli : ℚ) > 1 then (1 : ℚ)
         else nodeCPURequestMilli node pods / (node.cpuCapacityMilli : ℚ)) ≤ 1 := by
      nlinarith [hif]
    have hmul : ((resolvedSpecs c node).tdp : ℚ) *
        (3 / 10 + 7 / 10 *
          (if nodeCPURequestMilli node pods / (node.cpuCapacityMilli : ℚ) > 1 then (1 : ℚ)
           else nodeCPURequestMilli node pods / (node.cpuCapacityMilli : ℚ))) ≤
        ((resolvedSpecs c node).tdp : ℚ) * 1 := mul_le_mul_of_nonneg_left hfac htdp
    rw [mul_one] at hmul
    rw [← he]
    linarith

/-- Witness for C3: the node-model formula instantiated on the scenario
node carrying the scenario pod (500 of 2000 millicores requested). -/
theorem node_energy_model_witness :
    (0 : ℚ) ≤ nodeCPURequestMilli scenarioNode [scenarioPod] ∧
    (0 : ℚ) < (scenarioNode.cpuCapacityMilli : ℚ) ∧
    calculateNodeEnergyConsumption scenarioCalc scenarioNode [scenarioPod] =
      Except.ok (((resolvedSpecs scenarioCalc scenarioNode).tdp : ℚ) *
        (3 / 10 + 7 / 10 *
          clamp (nodeCPURequestMilli scenarioNode [scenarioPod] /
            (scenarioNode.cpuCapacityMilli : ℚ)) 0 1) / 1000) := by
  have hA : (0 : ℚ) ≤ nodeCPURequestMilli scenarioNode [scenarioPod] := by
    norm_num [nodeCPURequestMilli, podCPURequestMilli, scenarioNode, scenarioPod]
  have hB : (0 : ℚ) < (scenarioNode.cpuCapacityMilli : ℚ) := by
    norm_num [scenarioNode]
  exact ⟨hA, hB, (node_energy_model scenarioCalc scenarioNode [scenarioPod] hA hB).1⟩

/-- C9: of two scheduled pods with equal memory requests, the one
requesting strictly more CPU has strictly greater pod-model energy, and
(for positive PUE and positive effective grid intensity) strictly greater
stored energy and CO2 mass in the metric `CalculatePodCarbon` emits. -/
theorem pod_cpu_monotonicity :
    ∀ (c : Calculator) (now : Int) (p1 p2 : Pod),
      p1.nodeName ≠ "" → p2.nodeName ≠ "" →
      podMemRequestBytes p1 = podMemRequestBytes p2 →
      podCPURequestMilli p2 < podCPURequestMilli p1 →
      0 < c.config.pue → 0 < getGridIntensityOrDefault c →
      (∀ e1 e2, calculatePodEnergyConsumption p1 = Except.ok e1 →
        calculatePodEnergyConsumption p2 = Except.ok e2 → e2 < e1) ∧
      (∀ m1 m2, CalculatePodCarbon c now p1 = Except.ok [m1] →
        CalculatePodCarbon c now p2 = Except.ok [m2] →
        m2.energyConsumption < m1.energyConsumption ∧
        m2.co2Emissions < m1.co2Emissions) := by
  intro c now p1 p2 h1 h2 hmem hcpu hpue hgrid
  have hb1 : (p1.nodeName == "") = false := beq_eq_false_iff_ne.mpr h1
  have hb2 : (p2.nodeName == "") = false := beq_eq_false_iff_ne.mpr h2
  have key : ∀ p : Pod, (p.nodeName == "") = false →
      calculatePodEnergyConsumption p =
        Except.ok ((podCPURequestMilli p / 1000 * (5 / 2) +
          podMemRequestBytes p / (1024 * 1024 * 1024) * (3 / 8)) / 1000) := by
    intro p hb
    simp only [calculatePodEnergyConsumption, hb, Bool.false_eq_true, if_false]
  have hlt : (podCPURequestMilli p2 / 1000 * (5 / 2) +
        podMemRequestBytes p2 / (1024 * 1024 * 1024) * (3 / 8)) / 1000 <
      (podCPURequestMilli p1 / 1000 * (5 / 2) +
        podMemRequestBytes p1 / (1024 * 1024 * 1024) * (3 / 8)) / 1000 := by
    rw [hmem]
    have : podCPURequestMilli p2 / 1000 * (5 / 2) <
        podCPURequestMilli p1 / 1000 * (5 / 2) := by linarith
    linarith
  constructor
  · intro e1 e2 he1 he2
    rw [key p1 hb1, Except.ok.injEq] at he1
    rw [key p2 hb2, Except.ok.injEq] at he2
    rw [← he1, ← he2]
    exact hlt
  · intro m1 m2 hm1 hm2
    simp only [CalculatePodCarbon, key p1 hb1, Except.ok.injEq, List.cons.injEq,
      and_true] at hm1
    simp only [CalculatePodCarbon, key p2 hb2, Except.ok.injEq, List.cons.injEq,
      and_true] at hm2
    subst hm1
    subst hm2
    constructor
    · exact mul_lt_mul_of_pos_right hlt hpue
    · exact mul_lt_mul_of_pos_right (mul_lt_mul_of_pos_right hlt hpue) hgrid

/-- Witness for C9: the 600-millicore scenario pod strictly dominates the
500-millicore one (13/8000 kWh < 3/1600 kWh pre-PUE). -/
theorem pod_cpu_monotonicity_witness :
    podCPURequestMilli scenarioPod < podCPURequestMilli scenarioPodHigherCPU ∧
    (13 / 8000 : ℚ) < 3 / 1600 := by
  have hcpu : podCPURequestMilli scenarioPod < podCPURequestMilli scenarioPodHigherCPU := by
    norm_num [podCPURequestMilli, scenarioPod, scenarioPodHigherCPU]
  refine ⟨hcpu, ?_⟩
  have hok1 : calculatePodEnergyConsumption scenarioPodHigherCPU = Except.ok (3 / 1600) := by
    have h : (scenarioPodHigherCPU.nodeName == "") = false := rfl
    simp only [calculatePodEnergyConsumption, h, Bool.false_eq_true, if_false]
    norm_num [podCPURequestMilli, podMemRequestBytes, scenarioPodHigherCPU]
  have hok2 : calculatePodEnergyConsumption scenarioPod = Except.ok (13 / 8000) := by
    have h : (scenarioPod.nodeName == "") = false := rfl
    simp only [calculatePodEnergyConsumption, h, Bool.false_eq_true, if_false]
    norm_num [podCPURequestMilli, podMemRequestBytes, scenarioPod]
  exact (pod_cpu_monotonicity scenarioCalc 0 scenarioPodHigherCPU scenarioPod
    (by decide) (by decide) rfl hcpu
    (by norm_num [scenarioCalc]) (by norm_num [getGridIntensityOrDefault, scenarioCalc])).1
    (3 / 1600) (13 / 8000) hok1 hok2

/-- A single-value query with an unrecognized aggregation operator. -/
def aggQuery : Query :=
  { refId := "A", queryType := "single-value", resourceType := "pod",
    aggregation := "total", groupBy := [], timeRangeFrom := "", timeRangeTo := "" }

/-- The accumulating sum loop equals the list sum shifted by the initial
accumulator. -/
theorem foldl_add_co2 (l : List Metrics) (x : ℚ) :
    l.foldl (fun v m => v + m.co2Emissions) x =
      x + (l.map (fun m => m.co2Emissions)).sum := by
  induction l generalizing x with
  | nil => simp
  | cons m t ih =>
    simp only [List.foldl_cons, List.map_cons, List.sum_cons, ih]
    ring

/-- The running-max loop of the `"max"` branch: its result is the initial
accumulator or an element, bounds the accumulator, and bounds every element. -/
theorem foldl_max_spec (t : List Metrics) (x : ℚ) :
    (t.foldl (fun v m => if m.co2Emissions > v then m.co2Emissions else v) x = x ∨
      t.foldl (fun v m => if m.co2Emissions > v then m.co2Emissions else v) x ∈
        t.map (fun m => m.co2Emissions)) ∧
    x ≤ t.foldl (fun v m => if m.co2Emissions > v then m.co2Emissions else v) x ∧
    ∀ y ∈ t.map (fun m => m.co2Emissions),
      y ≤ t.foldl (fun v m => if m.co2Emissions > v then m.co2Emissions else v) x := by
  induction t generalizing x with
  | nil => exact ⟨Or.inl rfl, le_refl x, by simp⟩
  | cons m t ih =>
    obtain ⟨ihmem, ihle, ihub⟩ := ih (if m.co2Emissions > x then m.co2Emissions else x)
    simp only [List.foldl_cons, List.map_cons, List.mem_cons]
    have hxstep : x ≤ if m.co2Emissions > x then m.co2Emissions else x := by
      split
      · next h => exact h.le
      · exact le_refl x
    have hmstep : m.co2Emissions ≤ if m.co2Emissions > x then m.co2Emissions else x := by
      split
      · exact le_refl _
      · next h => exact not_lt.mp h
    refine ⟨?_, le_trans hxstep ihle, ?_⟩
    · rcases ihmem with hx | hmem
      · rw [hx]
        split
        · exact Or.inr (Or.inl rfl)
        · exact Or.inl rfl
      · exact Or.inr (Or.inr hmem)
    · intro y hy
      rcases hy with hy | hy
      · rw [hy]
        exact le_trans hmstep ihle
      · exact ihub y hy

/-- The running-min loop of the `"min"` branch, mirror of the max loop. -/
theorem foldl_min_spec (t : List Metrics) (x : ℚ) :
    (t.foldl (fun v m => if m.co2Emissions < v then m.co2Emissions else v) x = x ∨
      t.foldl (fun v m => if m.co2Emissions < v then m.co2Emissions else v) x ∈
        t.map (fun m => m.co2Emissions)) ∧
    t.foldl (fun v m => if m.co2Emissions < v then m.co2Emissions else v) x ≤ x ∧
    ∀ y ∈ t.map (fun m => m.co2Emissions),
      t.foldl (fun v m => if m.co2Emissions < v then m.co2Emissions else v) x ≤ y := by
  induction t generalizing x with
  | nil => exact ⟨Or.inl rfl, le_refl x, by simp⟩
  | cons m t ih =>
    obtain ⟨ihmem, ihle, ihub⟩ := ih (if m.co2Emissions < x then m.co2Emissions else x)
    simp only [List.foldl_cons, List.map_cons, List.mem_cons]
    have hxstep : (if m.co2Emissions < x then m.co2Emissions else x) ≤ x := by
      split
      · next h => exact h.le
      · exact le_refl x
    have hmstep : (if m.co2Emissions < x then m.co2Emissions else x) ≤ m.co2Emissions := by
      split
      · exact le_refl _
      · next h => exact not_lt.mp h
    refine ⟨?_, le_trans ihle hxstep, ?_⟩
    · rcases ihmem with hx | hmem
      · rw [hx]
        split
        · exact Or.inr (Or.inl rfl)
        · exact Or.inl rfl
      · exact Or.inr (Or.inr hmem)
    · intro y hy
      rcases hy with hy | hy
      · rw [hy]
        exact le_trans ihle hmstep
      · exact ihub y hy

/-- An unrecognized operator takes the default branch, which is the sum loop. -/
theorem singleAggValue_default (ms : List Metrics) (agg : String)
    (h1 : agg ≠ "sum") (h2 : agg ≠ "avg") (h3 : agg ≠ "max") (h4 : agg ≠ "min") :
    singleAggValue ms agg = singleAggValue ms "sum" := by
  unfold singleAggValue
  split
  · next h => exact absurd rfl h1
  · next h => exact absurd rfl h2
  · next h => exact absurd rfl h3
  · next h => exact absurd rfl h4
  · rfl

/-- C7: an unrecognized aggregation operator makes single-value formatting
behave exactly as `"sum"` and raise no error; the recognized operators
produce respectively the sum, the mean (dividing only for non-empty
input), the maximum and the minimum of the per-metric `CO2Emissions` values. -/
theorem single_value_aggregation :
    (∀ (ms : List Metrics) (q : Query), ms ≠ [] →
      q.aggregation ≠ "sum" → q.aggregation ≠ "avg" →
      q.aggregation ≠ "max" → q.aggregation ≠ "min" →
      convertToSingleValueFrames ms q =
        convertToSingleValueFrames ms { q with aggregation := "sum" } ∧
      (convertToSingleValueFrames ms q).isOk = true) ∧
    (∀ ms : List Metrics,
      singleAggValue ms "sum" = (ms.map (fun m => m.co2Emissions)).sum) ∧
    (∀ ms : List Metrics, ms ≠ [] →
      singleAggValue ms "avg" =
        (ms.map (fun m => m.co2Emissions)).sum / (ms.length : ℚ)) ∧
    (∀ ms : List Metrics, ms ≠ [] →
      singleAggValue ms "max" ∈ ms.map (fun m => m.co2Emissions) ∧
      ∀ y ∈ ms.map (fun m => m.co2Emissions), y ≤ singleAggValue ms "max") ∧
    (∀ ms : List Metrics, ms ≠ [] →
      singleAggValue ms "min" ∈ ms.map (fun m => m.co2Emissions) ∧
      ∀ y ∈ ms.map (fun m => m.co2Emissions), singleAggValue ms "min" ≤ y) := by
  have hsum : ∀ ms : List Metrics,
      singleAggValue ms "sum" = (ms.map (fun m => m.co2Emissions)).sum := by
    intro ms
    show ms.foldl (fun v m => v + m.co2Emissions) 0 = _
    rw [foldl_add_co2, zero_add]
  refine ⟨?_, hsum, ?_, ?_, ?_⟩
  · intro ms q hne h1 h2 h3 h4
    constructor
    · unfold convertToSingleValueFrames
      rw [singleAggValue_default ms q.aggregation h1 h2 h3 h4]
    · rfl
  · intro ms hne
    show (if ms.length > 0 then
        ms.foldl (fun v m => v + m.co2Emissions) 0 / (ms.length : ℚ)
      else ms.foldl (fun v m => v + m.co2Emissions) 0) = _
    rw [if_pos (List.length_pos.mpr hne), foldl_add_co2, zero_add]
  · intro ms hne
    obtain ⟨m0, rest, rfl⟩ := List.exists_cons_of_ne_nil hne
    obtain ⟨hmem, hle, hub⟩ := foldl_max_spec rest m0.co2Emissions
    have hval : singleAggValue (m0 :: rest) "max" =
        rest.foldl (fun v m => if m.co2Emissions > v then m.co2Emissions else v)
          m0.co2Emissions := rfl
    rw [hval]
    simp only [List.map_cons, List.mem_cons]
    refine ⟨?_, ?_⟩
    · rcases hmem with hx | hmem
      · exact Or.inl hx
      · exact Or.inr hmem
    · intro y hy
      rcases hy with hy | hy
      · rw [hy]
        exact hle
      · exact hub y hy
  · intro ms hne
    obtain ⟨m0, rest, rfl⟩ := List.exists_cons_of_ne_nil hne
    obtain ⟨hmem, hle, hub⟩ := foldl_min_spec rest m0.co2Emissions
    have hval : singleAggValue (m0 :: rest) "min" =
        rest.foldl (fun v m => if m.co2Emissions < v then m.co2Emissions else v)
          m0.co2Emissions := rfl
    rw [hval]
    simp only [List.map_cons, List.mem_cons]
    refine ⟨?_, ?_⟩
    · rcases hmem with hx | hmem
      · exact Or.inl hx
      · exact Or.inr hmem
    · intro y hy
      rcases hy with hy | hy
      · rw [hy]
        exact hle
      · exact hub y hy

/-- Witness for C7: the operator `"total"` is unrecognized, and on a
one-metric input single-value formatting equals the `"sum"` formatting and
reports no error. -/
theorem single_value_aggregation_witness :
    convertToSingleValueFrames [scenarioPodMetric] aggQuery =
      convertToSingleValueFrames [scenarioPodMetric]
        { aggQuery with aggregation := "sum" } ∧
    (convertToSingleValueFrames [scenarioPodMetric] aggQuery).isOk = true :=
  single_value_aggregation.1 [scenarioPodMetric] aggQuery (by simp)
    (by decide) (by decide) (by decide) (by decide)

/-- Witness for C8: empty input under the concrete single-value query. -/
theorem convert_empty_input_witness :
    ConvertToDataFrames [] aggQuery = Except.ok [] :=
  convert_empty_input aggQuery

/-- Witness for C10: the cluster calculation on the scenario inputs
returns one metric and no error. -/
theorem scope_calculations_never_fail_witness :
    (CalculateClusterCarbon scenarioCalc 0 [scenarioNode] [scenarioPod]).map
      (fun ms => ms.length) = Except.ok 1 :=
  scope_calculations_never_fail.2.1 scenarioCalc 0 [scenarioNode] [scenarioPod]
